import Mathlib

/-!
Shallow embedding of `src/http-client.py`, the concurrency and
statistics-aggregation engine of a threaded HTTP load generator, together
with proofs about its counter invariants, outcome classification, event
emission, reporter arithmetic and shutdown handling.

Times are modelled as rationals (Python floats used only through `+`, `-`,
`/` and comparisons), the three global counters as naturals, and fallible
Python operations (a division that can raise `ZeroDivisionError`, a queue
`put` that can block forever) as `Option`-valued functions where `none`
marks the operation not completing normally.
-/

/-- The three shared statistics counters of `http-client.py`
(`total_requests`, `successful_requests`, `failed_requests`,
lines 13-15), always mutated together under `stats_lock`. -/
structure Counters where
  total : Nat
  success : Nat
  fail : Nat
  deriving Repr, DecidableEq

/-- The reset performed at the start of `send_load` (lines 103-105):
all three counters are set to zero. -/
def countersReset : Counters := ⟨0, 0, 0⟩

/-- Result of one transport call `session.get(url, timeout=timeout)`
(line 30): either an HTTP response carrying a status code, or a raised
`requests.exceptions.RequestException` (connection refused, timeout, DNS
failure, protocol error). -/
inductive Outcome where
  | response (status : Nat)
  | transportFailure
  deriving Repr, DecidableEq

/-- The status test of line 36: `200 <= status_code < 400`. -/
def isSuccessStatus (status : Nat) : Bool :=
  decide (200 ≤ status) && decide (status < 400)

/-- The locked counter update of lines 33-39, run when a response was
received: `total_requests += 1`, then `successful_requests += 1` if the
status is in `[200, 400)` else `failed_requests += 1`. -/
def recordResponse (c : Counters) (status : Nat) : Counters :=
  { total := c.total + 1
    success := if isSuccessStatus status then c.success + 1 else c.success
    fail := if isSuccessStatus status then c.fail else c.fail + 1 }

/-- The locked counter update of lines 46-49, run when the transport call
raised: `total_requests += 1` and `failed_requests += 1`. -/
def recordFailure (c : Counters) : Counters :=
  { c with total := c.total + 1, fail := c.fail + 1 }

/-- The counter effect of one completed worker attempt (lines 29-49):
the response branch or the exception branch, by the outcome. -/
def recordAttempt (c : Counters) (out : Outcome) : Counters :=
  match out with
  | .response status => recordResponse c status
  | .transportFailure => recordFailure c

/-- The counters after a serialized run of attempts: `stats_lock` gives a
total order over all recorded attempts, so the shared state after any
sequence of completed attempts is the left fold of `recordAttempt` over
that sequence, starting from the reset of lines 103-105. Every
observation point of a run is `runCounters l` for some prefix `l`. -/
def runCounters (attempts : List Outcome) : Counters :=
  attempts.foldl recordAttempt countersReset

/-- Spec-side classifier for one attempt: the attempt is a success exactly
when an HTTP response was received with status in `[200, 400)`; any other
status and any transport failure is a failure. -/
def outcomeIsSuccess (out : Outcome) : Bool :=
  match out with
  | .response status => isSuccessStatus status
  | .transportFailure => false

lemma recordAttempt_total (c : Counters) (out : Outcome) :
    (recordAttempt c out).total = c.total + 1 := by
  cases out with
  | response status => rfl
  | transportFailure => rfl

lemma recordAttempt_success (c : Counters) (out : Outcome) :
    (recordAttempt c out).success =
      c.success + (if outcomeIsSuccess out then 1 else 0) := by
  cases out with
  | response status =>
    simp only [recordAttempt, recordResponse, outcomeIsSuccess]
    by_cases h : isSuccessStatus status = true
    · simp [h]
    · simp [h]
  | transportFailure => rfl

lemma recordAttempt_fail (c : Counters) (out : Outcome) :
    (recordAttempt c out).fail =
      c.fail + (if outcomeIsSuccess out then 0 else 1) := by
  cases out with
  | response status =>
    simp only [recordAttempt, recordResponse, outcomeIsSuccess]
    by_cases h : isSuccessStatus status = true
    · simp [h]
    · simp [h]
  | transportFailure => rfl

lemma recordAttempt_inv (c : Counters) (out : Outcome)
    (h : c.total = c.success + c.fail) :
    (recordAttempt c out).total =
      (recordAttempt c out).success + (recordAttempt c out).fail := by
  rw [recordAttempt_total, recordAttempt_success, recordAttempt_fail, h]
  by_cases hs : outcomeIsSuccess out = true
  · simp [hs]; ring
  · simp [hs]; ring

lemma runCounters_inv (l : List Outcome) :
    (runCounters l).total = (runCounters l).success + (runCounters l).fail := by
  have key : ∀ c : Counters, c.total = c.success + c.fail →
      (l.foldl recordAttempt c).total =
        (l.foldl recordAttempt c).success + (l.foldl recordAttempt c).fail := by
    induction l with
    | nil => intro c h; simpa using h
    | cons out rest ih =>
      intro c h
      simpa using ih (recordAttempt c out) (recordAttempt_inv c out h)
  exact key countersReset rfl

/-- C1: at every observation point of a run (i.e. after any serialized
sequence of completed attempts, the order provided by `stats_lock`),
`total = success + fail`; moreover each completed attempt increments
`total` by exactly one and the sum `success + fail` by exactly one, so no
attempt is double-counted or dropped. -/
theorem worker_counters_invariant :
    (∀ l : List Outcome,
      (runCounters l).total = (runCounters l).success + (runCounters l).fail)
    ∧ (∀ (c : Counters) (out : Outcome),
      (recordAttempt c out).total = c.total + 1 ∧
      (recordAttempt c out).success + (recordAttempt c out).fail
        = c.success + c.fail + 1) := by
  refine ⟨runCounters_inv, fun c out => ⟨recordAttempt_total c out, ?_⟩⟩
  rw [recordAttempt_success, recordAttempt_fail]
  by_cases hs : outcomeIsSuccess out = true
  · simp [hs]; ring
  · simp [hs]; ring

/-- C2: for every attempt, the outcome is classified as a success exactly
when an HTTP response arrived with status in `[200, 400)`: the success
counter gains one exactly in that case, the fail counter gains one in
every other case (other status codes and transport failures alike), and in
both cases `total` gains exactly one, so exactly one attempt is
recorded. -/
theorem worker_outcome_classification (c : Counters) (out : Outcome) :
    (recordAttempt c out).total = c.total + 1 ∧
    (recordAttempt c out).success =
      c.success + (if outcomeIsSuccess out then 1 else 0) ∧
    (recordAttempt c out).fail =
      c.fail + (if outcomeIsSuccess out then 0 else 1) ∧
    (∀ status : Nat, outcomeIsSuccess (Outcome.response status) =
      (decide (200 ≤ status) && decide (status < 400))) ∧
    outcomeIsSuccess Outcome.transportFailure = false :=
  ⟨recordAttempt_total c out, recordAttempt_success c out,
    recordAttempt_fail c out, fun _ => rfl, rfl⟩

/-- Componentwise order on the counters. -/
def Counters.le (a b : Counters) : Prop :=
  a.total ≤ b.total ∧ a.success ≤ b.success ∧ a.fail ≤ b.fail

lemma recordAttempt_mono (c : Counters) (out : Outcome) :
    Counters.le c (recordAttempt c out) := by
  refine ⟨?_, ?_, ?_⟩
  · rw [recordAttempt_total]; omega
  · rw [recordAttempt_success]; omega
  · rw [recordAttempt_fail]; omega

lemma foldl_recordAttempt_mono (l : List Outcome) :
    ∀ c : Counters, Counters.le c (l.foldl recordAttempt c) := by
  induction l with
  | nil => intro c; exact ⟨le_refl _, le_refl _, le_refl _⟩
  | cons out rest ih =>
    intro c
    have h1 := recordAttempt_mono c out
    have h2 := ih (recordAttempt c out)
    exact ⟨le_trans h1.1 h2.1, le_trans h1.2.1 h2.2.1, le_trans h1.2.2 h2.2.2⟩

/-- C8: over the lifetime of one run, `total`, `success` and `fail` are
each monotonically non-decreasing: every single recorded attempt leaves
each counter unchanged or larger, and hence any later observation point of
the run dominates any earlier one componentwise. -/
theorem counters_monotone :
    (∀ (c : Counters) (out : Outcome), Counters.le c (recordAttempt c out))
    ∧ (∀ l₁ l₂ : List Outcome,
      Counters.le (runCounters l₁) (runCounters (l₁ ++ l₂))) := by
  refine ⟨recordAttempt_mono, fun l₁ l₂ => ?_⟩
  unfold runCounters
  rw [List.foldl_append]
  exact foldl_recordAttempt_mono l₂ _

/-- The tuple `(thread_id, status_code, time.time())` pushed on the stats
queue at line 43. -/
structure RequestEvent where
  threadId : Nat
  statusCode : Nat
  timestamp : ℚ
  deriving Repr, DecidableEq

/-- The bounded `queue.Queue(maxsize=10000)` of line 113: a FIFO list of
events plus its capacity. Following Python, a capacity of 0 means
unbounded. -/
structure StatsQueue where
  maxsize : Nat
  items : List RequestEvent
  deriving Repr, DecidableEq

/-- Python `queue.Queue.put(item)` with the default `block=True` (line
43): if the queue is unbounded or has free space the item is appended;
otherwise the call blocks until a consumer frees space, modelled as
`none` (the call does not complete, and with no consumer it never
will). -/
def StatsQueue.put (q : StatsQueue) (e : RequestEvent) : Option StatsQueue :=
  if q.maxsize = 0 ∨ q.items.length < q.maxsize then
    some { q with items := q.items ++ [e] }
  else
    none

/-- Observable result of one body of the worker loop (lines 29-49):
the counters after the attempt, the queue after the put attempt if one
was made, and whether the worker is left blocked inside `put`. -/
structure IterResult where
  counters : Counters
  queue : Option StatsQueue
  blocked : Bool
  deriving Repr, DecidableEq

/-- One iteration of the worker loop, lines 29-49, given the transport
outcome of line 30. On a response the counters are updated under the lock
(lines 33-39) and then, when `stats_queue is not None` (detailed mode,
line 42), `put` is called with `(thread_id, status_code, time.time())`
(line 43); a full bounded queue leaves the worker blocked in `put` with
the queue unchanged. On a `RequestException` only the counters are
updated (lines 45-49). -/
def workerIter (c : Counters) (q : Option StatsQueue) (threadId : Nat)
    (out : Outcome) (now : ℚ) : IterResult :=
  match out with
  | .response status =>
    let c1 := recordResponse c status
    match q with
    | none => ⟨c1, none, false⟩
    | some sq =>
      match sq.put ⟨threadId, status, now⟩ with
      | some sq1 => ⟨c1, some sq1, false⟩
      | none => ⟨c1, some sq, true⟩
  | .transportFailure => ⟨recordFailure c, q, false⟩

/-- C4 counterexample: with capacity 1 and one queued event, the worker's
push of a further event does not drop it and continue — `put` returns no
completed state (it blocks), and the worker iteration is left blocked.
The claim that a full channel makes the push drop the event silently and
never block is therefore false of the code, which calls the blocking
`Queue.put`. -/
theorem event_push_blocks_counterexample :
    StatsQueue.put ⟨1, [⟨0, 200, 0⟩]⟩ ⟨1, 200, 1⟩ = none ∧
    (workerIter ⟨5, 5, 0⟩ (some ⟨1, [⟨0, 200, 0⟩]⟩) 1 (.response 200) 1).blocked
      = true := by
  constructor
  · rfl
  · rfl

/-- C4 amended: the push on the event channel is the blocking `Queue.put`:
when the bounded channel is full the event is not dropped — the call does
not complete and the worker loop is stalled inside `put` (the attempt
itself was already counted before the push); only when the channel is
unbounded or has free space does the push complete, appending the
event. -/
theorem event_push_blocking_behavior (sq : StatsQueue) (e : RequestEvent)
    (c : Counters) (threadId status : Nat) (now : ℚ) :
    (sq.maxsize ≠ 0 → sq.items.length ≥ sq.maxsize → sq.put e = none) ∧
    (sq.maxsize ≠ 0 → sq.items.length ≥ sq.maxsize →
      (workerIter c (some sq) threadId (.response status) now).blocked = true ∧
      (workerIter c (some sq) threadId (.response status) now).counters
        = recordResponse c status) ∧
    ((sq.maxsize = 0 ∨ sq.items.length < sq.maxsize) →
      sq.put e = some { sq with items := sq.items ++ [e] }) := by
  refine ⟨?_, ?_, ?_⟩
  · intro h1 h2
    simp [StatsQueue.put, h1, Nat.not_lt.mpr h2]
  · intro h1 h2
    have hput : sq.put ⟨threadId, status, now⟩ = none := by
      simp [StatsQueue.put, h1, Nat.not_lt.mpr h2]
    constructor
    · simp [workerIter, hput]
    · simp [workerIter, hput]
  · intro h
    simp [StatsQueue.put, h]

/-- C4 amended, witness at a concrete full queue and a concrete non-full
queue. -/
theorem event_push_blocking_behavior_witness :
    ((1 : Nat) ≠ 0 → [(⟨0, 200, 0⟩ : RequestEvent)].length ≥ 1 →
      StatsQueue.put ⟨1, [⟨0, 200, 0⟩]⟩ ⟨1, 200, 1⟩ = none) ∧
    (((2 : Nat) = 0 ∨ [(⟨0, 200, 0⟩ : RequestEvent)].length < 2) →
      StatsQueue.put ⟨2, [⟨0, 200, 0⟩]⟩ ⟨1, 200, 1⟩
        = some ⟨2, [⟨0, 200, 0⟩, ⟨1, 200, 1⟩]⟩) :=
  ⟨(event_push_blocking_behavior ⟨1, [⟨0, 200, 0⟩]⟩ ⟨1, 200, 1⟩
      ⟨5, 5, 0⟩ 1 200 1).1,
    (event_push_blocking_behavior ⟨2, [⟨0, 200, 0⟩]⟩ ⟨1, 200, 1⟩
      ⟨5, 5, 0⟩ 1 200 1).2.2⟩

/-- C5 counterexample: a response with status 500 is classified as a
failure (`isSuccessStatus 500 = false`, the fail counter gains one), yet
in detailed mode the worker still enqueues a RequestEvent for it: the
queue gains the event `(7, 500, 3)`. The claim that only successfully
classified responses produce an event is therefore false of the code,
whose enqueue at lines 42-43 is guarded only by `stats_queue is not
None`, not by the status test. -/
theorem event_on_failed_status_counterexample :
    isSuccessStatus 500 = false ∧
    (workerIter ⟨0, 0, 0⟩ (some ⟨10000, []⟩) 7 (.response 500) 3).counters.fail
      = 1 ∧
    (workerIter ⟨0, 0, 0⟩ (some ⟨10000, []⟩) 7 (.response 500) 3).queue
      = some ⟨10000, [⟨7, 500, 3⟩]⟩ := by
  refine ⟨rfl, rfl, rfl⟩

/-- C5 amended: in detailed mode a worker enqueues a RequestEvent for
every attempt that received an HTTP response, whatever its status code
and classification (the enqueue is guarded only by the queue being
present); only transport-level failures produce no event. -/
theorem event_emitted_for_every_response (c : Counters) (sq : StatsQueue)
    (threadId status : Nat) (now : ℚ) :
    ((sq.maxsize = 0 ∨ sq.items.length < sq.maxsize) →
      (workerIter c (some sq) threadId (.response status) now).queue
        = some { sq with items := sq.items ++ [⟨threadId, status, now⟩] }) ∧
    (workerIter c (some sq) threadId .transportFailure now).queue = some sq := by
  constructor
  · intro h
    simp [workerIter, StatsQueue.put, h]
  · rfl

/-- C5 amended, witness: a 500 response on a queue with space enqueues its
event; a transport failure leaves the queue unchanged. -/
theorem event_emitted_for_every_response_witness :
    (((10000 : Nat) = 0 ∨ ([] : List RequestEvent).length < 10000) →
      (workerIter ⟨0, 0, 0⟩ (some ⟨10000, []⟩) 7 (.response 500) 3).queue
        = some ⟨10000, [⟨7, 500, 3⟩]⟩) ∧
    (workerIter ⟨0, 0, 0⟩ (some ⟨10000, []⟩) 7 .transportFailure 3).queue
      = some ⟨10000, []⟩ :=
  ⟨fun h => by
      simpa using
        (event_emitted_for_every_response ⟨0, 0, 0⟩ ⟨10000, []⟩ 7 500 3).1 h,
    (event_emitted_for_every_response ⟨0, 0, 0⟩ ⟨10000, []⟩ 7 500 3).2⟩

/-- C10: an attempt that ends in a transport-level failure (a raised
`RequestException`) never enqueues anything: the exception is raised by
the `get` call before line 43 is reached, so the except branch (lines
45-49) updates only the counters, leaves the queue exactly as it was in
every mode, and never blocks. -/
theorem transport_failure_no_event (c : Counters) (q : Option StatsQueue)
    (threadId : Nat) (now : ℚ) :
    workerIter c q threadId .transportFailure now
      = ⟨recordFailure c, q, false⟩ := by
  rfl

/-- The shared run state of `http-client.py`: the global `running` flag
(line 17), `start_time` (line 18), and the counters, as observed by every
thread. -/
structure SystemState where
  running : Bool
  startTime : ℚ
  counters : Counters
  deriving Repr, DecidableEq

/-- The signal handler `handle_sigint` (lines 82-86): it only sets
`running = False` (and prints a notice); it touches nothing else. -/
def handle_sigint (s : SystemState) : SystemState :=
  { s with running := false }

/-- C6: the shutdown trigger is idempotent. For every reachable state,
issuing the interrupt any number n + 1 ≥ 1 of times yields exactly the
state of issuing it once: the `running` flag is false and the counters
and start time are untouched (nothing is reset or restarted), so a second
or later interrupt while draining changes nothing. -/
theorem sigint_idempotent (s : SystemState) (n : Nat) :
    handle_sigint^[n + 1] s = handle_sigint s ∧
    (handle_sigint s).running = false ∧
    (handle_sigint s).counters = s.counters ∧
    (handle_sigint s).startTime = s.startTime := by
  refine ⟨?_, rfl, rfl, rfl⟩
  rw [Function.iterate_succ_apply]
  exact Function.iterate_fixed rfl n

/-- Per-tick state the reporter carries across iterations:
`last_total` (starts at 0) and `last_time` (lines 55-56, 79-80). -/
structure ReporterState where
  lastTotal : Nat
  lastTime : ℚ
  deriving Repr, DecidableEq

/-- The three values rendered by a reporter tick (lines 72-76):
instantaneous rate, cumulative average rate, success percentage. -/
structure TickReport where
  rps : ℚ
  totalRps : ℚ
  successRate : ℚ
  deriving Repr, DecidableEq

/-- One tick of `stats_reporter` (lines 58-80), given the values of
`total_requests` and `successful_requests` it observed and the current
time: `rps = (current_total - last_total) / elapsed if elapsed > 0 else
0`, `total_rps = current_total / total_elapsed if total_elapsed > 0 else
0`, `success_rate = successful / current_total * 100 if current_total > 0
else 0`, then `last_total` and `last_time` are set to the observed
values. -/
def statsTick (st : ReporterState) (startTime now : ℚ)
    (currentTotal successful : Nat) : TickReport × ReporterState :=
  let elapsed := now - st.lastTime
  let requestsSinceLast := (currentTotal : ℚ) - (st.lastTotal : ℚ)
  let rps := if elapsed > 0 then requestsSinceLast / elapsed else 0
  let totalElapsed := now - startTime
  let totalRps := if totalElapsed > 0 then (currentTotal : ℚ) / totalElapsed else 0
  let successRate :=
    if currentTotal > 0 then (successful : ℚ) / (currentTotal : ℚ) * 100 else 0
  (⟨rps, totalRps, successRate⟩, ⟨currentTotal, now⟩)

/-- C7: each reporter tick reports exactly the spec formulas — the
instantaneous rate is `(total - lastTotal) / (now - lastTime)` and 0 when
the elapsed interval is ≤ 0, the average rate is `total / (now -
startTime)` and 0 when the total elapsed is ≤ 0, the success rate is
`success / total * 100` and 0 when `total = 0` — and the remembered
`lastTotal`, `lastTime` are updated to the just-observed values. -/
theorem stats_tick_formulas (st : ReporterState) (startTime now : ℚ)
    (total success : Nat) :
    (statsTick st startTime now total success).1.rps
      = (if now - st.lastTime ≤ 0 then 0
          else ((total : ℚ) - (st.lastTotal : ℚ)) / (now - st.lastTime)) ∧
    (statsTick st startTime now total success).1.totalRps
      = (if now - startTime ≤ 0 then 0 else (total : ℚ) / (now - startTime)) ∧
    (statsTick st startTime now total success).1.successRate
      = (if total = 0 then 0 else (success : ℚ) / (total : ℚ) * 100) ∧
    (statsTick st startTime now total success).2 = ⟨total, now⟩ := by
  refine ⟨?_, ?_, ?_, rfl⟩
  · simp only [statsTick]
    rcases le_or_lt (now - st.lastTime) 0 with h | h
    · rw [if_pos h, if_neg (not_lt.mpr h)]
    · rw [if_neg (not_le.mpr h), if_pos h]
  · simp only [statsTick]
    rcases le_or_lt (now - startTime) 0 with h | h
    · rw [if_pos h, if_neg (not_lt.mpr h)]
    · rw [if_neg (not_le.mpr h), if_pos h]
  · simp only [statsTick]
    rcases Nat.eq_zero_or_pos total with h | h
    · simp [h]
    · rw [if_pos h, if_neg (Nat.pos_iff_ne_zero.mp h)]

/-- Python float division, which raises `ZeroDivisionError` on a zero
divisor, modelled as `none`. -/
def pyDiv (a b : ℚ) : Option ℚ :=
  if b = 0 then none else some (a / b)

/-- The values of the final summary of `send_load` (lines 143-153). -/
structure FinalReport where
  total : Nat
  success : Nat
  failed : Nat
  finalRps : ℚ
  successPct : ℚ
  failPct : ℚ
  deriving Repr, DecidableEq

/-- The final report computation of lines 143-153: `final_rps =
total_requests / total_time if total_time > 0 else 0` (line 146), then
the printed percentages `successful_requests / total_requests * 100`
(line 150) and `failed_requests / total_requests * 100` (line 151),
both plain unguarded divisions; a division by a zero `total_requests`
raises, so the whole report is `none`. -/
def finalReport (totalRequests successfulRequests failedRequests : Nat)
    (totalTime : ℚ) : Option FinalReport :=
  let finalRps :=
    if totalTime > 0 then (totalRequests : ℚ) / totalTime else 0
  match pyDiv (successfulRequests : ℚ) (totalRequests : ℚ) with
  | none => none
  | some sdiv =>
    match pyDiv (failedRequests : ℚ) (totalRequests : ℚ) with
    | none => none
    | some fdiv =>
      some ⟨totalRequests, successfulRequests, failedRequests,
        finalRps, sdiv * 100, fdiv * 100⟩

/-- C3 counterexample: triggering shutdown with zero completed attempts
(`total = success = fail = 0`, any positive elapsed time) does not
produce an all-zero report — the success-percentage division of line 150
divides by `total_requests = 0` and raises `ZeroDivisionError`, so the
final report computation aborts (`none`). -/
theorem final_report_zero_counterexample :
    finalReport 0 0 0 5 = none ∧
    pyDiv (0 : ℚ) (0 : ℚ) = none := by
  constructor
  · rfl
  · rfl

/-- C3 amended: in the final summary only the average rate carries a
guard, and it guards the elapsed time, not the total: `final_rps` is 0
when `total_time ≤ 0` and `total / total_time` otherwise. The success
and failure percentages are unguarded divisions by `total`, so with
`total = 0` the summary raises `ZeroDivisionError` instead of reporting
zeros, and with `total > 0` it reports `success / total * 100` and
`fail / total * 100`. -/
theorem final_report_guards (total success failed : Nat) (totalTime : ℚ) :
    (total = 0 → finalReport total success failed totalTime = none) ∧
    (total ≠ 0 → finalReport total success failed totalTime
      = some ⟨total, success, failed,
          (if totalTime > 0 then (total : ℚ) / totalTime else 0),
          (success : ℚ) / (total : ℚ) * 100,
          (failed : ℚ) / (total : ℚ) * 100⟩) := by
  constructor
  · intro h
    subst h
    simp [finalReport, pyDiv]
  · intro h
    have hq : ((total : ℚ)) ≠ 0 := by exact_mod_cast h
    simp [finalReport, pyDiv, hq]

/-- C3 amended, witness: at `total = 0` the report aborts; at a run with
10 attempts, 7 successes, 3 failures over 5 seconds it reports rate 2 and
percentages 70 and 30. -/
theorem final_report_guards_witness :
    ((0 : Nat) = 0 → finalReport 0 0 0 5 = none) ∧
    ((10 : Nat) ≠ 0 → finalReport 10 7 3 5
      = some ⟨10, 7, 3, (if (5 : ℚ) > 0 then (10 : ℚ) / 5 else 0),
          (7 : ℚ) / 10 * 100, (3 : ℚ) / 10 * 100⟩) :=
  ⟨(final_report_guards 0 0 0 5).1, (final_report_guards 10 7 3 5).2⟩

/-- What the reporter actually observes in one tick: `stats_reporter`
reads `total_requests` at line 61 and `successful_requests` only at line
70, in two separate accesses and without ever acquiring `stats_lock`, so
worker attempts can be recorded between the two reads. Given the run's
serialized attempt sequence `l` and the read points `i ≤ j` (numbers of
attempts completed before each read), the observed pair is the total
after `i` attempts together with the success count after `j` attempts. -/
def reporterUnsyncRead (l : List Outcome) (i j : Nat) : Nat × Nat :=
  ((runCounters (l.take i)).total, (runCounters (l.take j)).success)

lemma runCounters_success_le_total (l : List Outcome) :
    (runCounters l).success ≤ (runCounters l).total := by
  rw [runCounters_inv l]
  omega

/-- C9 counterexample: the reporter's read is not a consistent
point-in-time snapshot. With two successful attempts and a worker update
interleaved between the reporter's two unlocked reads (total read after
attempt 1, success read after attempt 2), the reporter observes the torn
pair `(total = 1, success = 2)` with `success > total` — a pair no single
observation point can exhibit, since at every point of every run
`success ≤ total`. -/
theorem reporter_torn_read_counterexample :
    reporterUnsyncRead [.response 200, .response 200] 1 2 = (1, 2) ∧
    (reporterUnsyncRead [.response 200, .response 200] 1 2).1
      < (reporterUnsyncRead [.response 200, .response 200] 1 2).2 := by
  constructor
  · rfl
  · decide

/-- C9 amended: the reporter (lines 58-70) reads `total_requests` and
`successful_requests` in two separate accesses without holding
`stats_lock`, so the observation is a consistent snapshot only when no
worker update lands between the two reads (`i = j`); every same-instant
observation satisfies the snapshot bound `success ≤ total`, but for read
points `i < j` the observed success count can exceed the observed total,
which no point-in-time snapshot of the run allows. -/
theorem reporter_reads_unsynchronized :
    (∀ (l : List Outcome) (i : Nat),
      (reporterUnsyncRead l i i).2 ≤ (reporterUnsyncRead l i i).1 ∧
      reporterUnsyncRead l i i
        = ((runCounters (l.take i)).total, (runCounters (l.take i)).success))
    ∧ (∃ (l : List Outcome) (i j : Nat), i < j ∧
      (reporterUnsyncRead l i j).1 < (reporterUnsyncRead l i j).2) := by
  constructor
  · intro l i
    exact ⟨runCounters_success_le_total (l.take i), rfl⟩
  · exact ⟨[.response 200, .response 200], 1, 2, by omega, by decide⟩
